import Mathlib

/-!
Shallow embedding of `src/use-fullscreen.ts` (the `useFullscreen` React hook)
and proofs of the specification's claims about it.

Modelling conventions:
* Element references are natural-number identities; a nullable reference is
  `Option Nat`, with `none` playing the role of JavaScript `null`.  Equality
  on `Option Nat` then mirrors JavaScript reference equality `===`, including
  `null === null` being true.
* The document-equivalent object is split into the four optional properties
  read by `getFullscreenElement` (a `DocumentState`) and the presence flags of
  its exit-capability methods (a `DocumentCaps`).  Each element handle carries
  presence flags for its request-capability methods (`ElementCaps`).
* The hook's mutable state is a `HookState`: the `elementRef.current` value
  and the `isFullscreen` boolean.
* Operations return `Except String (HookState × List Eff)`: the resulting
  hook state together with the trace of capability-method invocations the
  operation performed.  Invoking a method that is absent on its object is a
  thrown `TypeError` (`Except.error`); the source always tests presence
  before invoking, so the error branch models what the source avoids.
-/

namespace UseFullscreen

/-- Nullable element reference: `none` is JavaScript `null`. -/
abbrev ElemRef := Option Nat

/-- The four document properties read by `getFullscreenElement`, in source
order: `document.fullscreenElement`, `document.webkitFullscreenElement`,
`document.mozFullScreenElement`, `document.msFullscreenElement`.  `none`
covers both an absent property (`undefined`) and `null`, which the source's
`||` chain treats identically (both falsy). -/
structure DocumentState where
  fullscreenElement : ElemRef
  webkitFullscreenElement : ElemRef
  mozFullScreenElement : ElemRef
  msFullscreenElement : ElemRef
deriving DecidableEq, Repr

/-- Presence flags of the request-capability methods an element handle may
expose, in the source's test order. -/
structure ElementCaps where
  requestFullscreen : Bool
  webkitRequestFullscreen : Bool
  mozRequestFullScreen : Bool
  msRequestFullscreen : Bool
deriving DecidableEq, Repr

/-- Presence flags of the exit-capability methods on the document-equivalent
object, in the source's test order. -/
structure DocumentCaps where
  exitFullscreen : Bool
  webkitExitFullscreen : Bool
  mozCancelFullScreen : Bool
  msExitFullscreen : Bool
deriving DecidableEq, Repr

/-- The host environment as seen by the operations: the request capabilities
of every element and the exit capabilities of the document. -/
structure Env where
  elemCaps : Nat → ElementCaps
  docCaps : DocumentCaps

/-- The hook's state: `elementRef.current` (a nullable reference) and the
`isFullscreen` flag from `useState`. -/
structure HookState where
  elementRef : ElemRef
  isFullscreen : Bool
deriving DecidableEq, Repr

/-- Initial hook state: `useRef<T>(null)` and `useState(false)`. -/
def initialState : HookState := { elementRef := none, isFullscreen := false }

/-- Embedding of `getFullscreenElement`: the JavaScript chain
`document.fullscreenElement || document.webkitFullscreenElement ||
document.mozFullScreenElement || document.msFullscreenElement || null`.
Elements are truthy and absent/null values falsy, so `||` yields the first
present element, else `null` (`none`). -/
def getFullscreenElement (d : DocumentState) : ElemRef :=
  d.fullscreenElement <|> d.webkitFullscreenElement <|>
    d.mozFullScreenElement <|> d.msFullscreenElement

/-- Embedding of `handleFullscreenChange`: recomputes the environment's
fullscreen target and sets the flag to the result of the reference-equality
comparison `fullscreenElement === elementRef.current`. -/
def handleFullscreenChange (d : DocumentState) (s : HookState) : HookState :=
  { s with isFullscreen := decide (getFullscreenElement d = s.elementRef) }

/-- Names of the request-capability methods, in the source's fallback order. -/
inductive RequestMethod
  | requestFullscreen
  | webkitRequestFullscreen
  | mozRequestFullScreen
  | msRequestFullscreen
deriving DecidableEq, Repr

/-- Names of the exit-capability methods, in the source's fallback order. -/
inductive ExitMethod
  | exitFullscreen
  | webkitExitFullscreen
  | mozCancelFullScreen
  | msExitFullscreen
deriving DecidableEq, Repr

/-- One observable capability-method invocation performed by an operation. -/
inductive Eff
  | request (e : Nat) (m : RequestMethod)
  | exitCall (m : ExitMethod)
deriving DecidableEq, Repr

/-- Whether an element handle exposes a given request method. -/
def ElementCaps.has (c : ElementCaps) : RequestMethod → Bool
  | .requestFullscreen => c.requestFullscreen
  | .webkitRequestFullscreen => c.webkitRequestFullscreen
  | .mozRequestFullScreen => c.mozRequestFullScreen
  | .msRequestFullscreen => c.msRequestFullscreen

/-- Whether the document exposes a given exit method. -/
def DocumentCaps.has (c : DocumentCaps) : ExitMethod → Bool
  | .exitFullscreen => c.exitFullscreen
  | .webkitExitFullscreen => c.webkitExitFullscreen
  | .mozCancelFullScreen => c.mozCancelFullScreen
  | .msExitFullscreen => c.msExitFullscreen

/-- Invoking request method `m` on element `e`: a `TypeError` is thrown when
the method is absent, otherwise the invocation is recorded. -/
def invokeRequest (c : ElementCaps) (e : Nat) (m : RequestMethod) :
    Except String (List Eff) :=
  if c.has m then Except.ok [Eff.request e m]
  else Except.error "TypeError: not a function"

/-- Invoking exit method `m` on the document: a `TypeError` is thrown when
the method is absent, otherwise the invocation is recorded. -/
def invokeExit (c : DocumentCaps) (m : ExitMethod) :
    Except String (List Eff) :=
  if c.has m then Except.ok [Eff.exitCall m]
  else Except.error "TypeError: not a function"

/-- Embedding of `enterFullscreen`: guard `if (element && !isFullscreen)`,
then the if/else-if chain over the four request methods, testing presence and
invoking the first present one.  The hook state is returned unchanged: the
source body contains no `setIsFullscreen` call. -/
def enterFullscreen (env : Env) (s : HookState) :
    Except String (HookState × List Eff) :=
  match s.elementRef with
  | none => Except.ok (s, [])
  | some e =>
    if s.isFullscreen then Except.ok (s, [])
    else
      let c := env.elemCaps e
      if c.requestFullscreen then
        (invokeRequest c e .requestFullscreen).map fun effs => (s, effs)
      else if c.webkitRequestFullscreen then
        (invokeRequest c e .webkitRequestFullscreen).map fun effs => (s, effs)
      else if c.mozRequestFullScreen then
        (invokeRequest c e .mozRequestFullScreen).map fun effs => (s, effs)
      else if c.msRequestFullscreen then
        (invokeRequest c e .msRequestFullscreen).map fun effs => (s, effs)
      else Except.ok (s, [])

/-- Embedding of `exitFullscreen`: guard `if (isFullscreen)`, then the
if/else-if chain over the four exit methods on the document.  The hook state
is returned unchanged: the source body contains no `setIsFullscreen` call. -/
def exitFullscreen (env : Env) (s : HookState) :
    Except String (HookState × List Eff) :=
  if s.isFullscreen then
    let c := env.docCaps
    if c.exitFullscreen then
      (invokeExit c .exitFullscreen).map fun effs => (s, effs)
    else if c.webkitExitFullscreen then
      (invokeExit c .webkitExitFullscreen).map fun effs => (s, effs)
    else if c.mozCancelFullScreen then
      (invokeExit c .mozCancelFullScreen).map fun effs => (s, effs)
    else if c.msExitFullscreen then
      (invokeExit c .msExitFullscreen).map fun effs => (s, effs)
    else Except.ok (s, [])
  else Except.ok (s, [])

/-- Embedding of `toggleFullscreen`: dispatches on the flag. -/
def toggleFullscreen (env : Env) (s : HookState) :
    Except String (HookState × List Eff) :=
  if s.isFullscreen then exitFullscreen env s else enterFullscreen env s

/-- Events acting on the hook state between renders: a fullscreen-change
notification from the environment (`notify`), or the consumer binding or
unbinding the element handle (`bind`). -/
inductive Ev
  | notify (d : DocumentState)
  | bind (r : ElemRef)

/-- One event applied to the hook state. -/
def stepEv (s : HookState) (e : Ev) : HookState :=
  match e with
  | .notify d => handleFullscreenChange d s
  | .bind r => { s with elementRef := r }

/-- A sequence of events applied to the hook state. -/
def runEvents (s : HookState) (es : List Ev) : HookState :=
  es.foldl stepEv s

/-- Modelled from the spec: the query returns the first non-absent value of
the four properties in the fixed priority order canonical, webkit, moz, ms,
or an explicit `none` when all four are absent.  Stated for comparison with
the source's `getFullscreenElement`. -/
def queryFirstPresent (d : DocumentState) : ElemRef :=
  [d.fullscreenElement, d.webkitFullscreenElement,
    d.mozFullScreenElement, d.msFullscreenElement].findSome? id

/-- Modelled from the spec: the first request method present on the handle
in the fixed priority order canonical, webkit, moz, ms.  Stated for
comparison with the source's `enterFullscreen` fallback chain. -/
def firstRequestMethod (c : ElementCaps) : Option RequestMethod :=
  [RequestMethod.requestFullscreen, RequestMethod.webkitRequestFullscreen,
    RequestMethod.mozRequestFullScreen,
    RequestMethod.msRequestFullscreen].find? fun m => c.has m

/-- The four event names registered by the effect, in source order. -/
def subscribedEvents : List String :=
  ["fullscreenchange", "webkitfullscreenchange", "mozfullscreenchange",
    "MSFullscreenChange"]

/-- The four event names deregistered by the effect cleanup, in source
order. -/
def unsubscribedEvents : List String :=
  ["fullscreenchange", "webkitfullscreenchange", "mozfullscreenchange",
    "MSFullscreenChange"]

/-- A DOM event-target listener registry: pairs of event name and handler
reference (handler identity modelled as a natural number). -/
abbrev Listeners := List (String × Nat)

/-- DOM `addEventListener`: registering an already-registered (name, handler)
pair is a no-op, otherwise the pair is appended. -/
def addEventListener (l : Listeners) (ev : String) (h : Nat) : Listeners :=
  if (ev, h) ∈ l then l else l ++ [(ev, h)]

/-- DOM `removeEventListener`: removes the matching (name, handler) pair. -/
def removeEventListener (l : Listeners) (ev : String) (h : Nat) : Listeners :=
  l.filter fun p => p != (ev, h)

/-- The effect body: registers the single `handleFullscreenChange` reference
`h` for each of the four event names. -/
def effectSetup (h : Nat) (l : Listeners) : Listeners :=
  subscribedEvents.foldl (fun acc ev => addEventListener acc ev h) l

/-- The effect cleanup: deregisters the same handler reference `h` from each
of the four event names. -/
def effectCleanup (h : Nat) (l : Listeners) : Listeners :=
  unsubscribedEvents.foldl (fun acc ev => removeEventListener acc ev h) l

/-- Dispatching an event: the handler references invoked for event name
`ev`, in registration order. -/
def dispatchEvent (l : Listeners) (ev : String) : List Nat :=
  (l.filter fun p => p.1 == ev).map Prod.snd

/-- A document state with every fullscreen property absent. -/
def emptyDoc : DocumentState :=
  { fullscreenElement := none, webkitFullscreenElement := none,
    mozFullScreenElement := none, msFullscreenElement := none }

/-- An element exposing all four request methods. -/
def fullCaps : ElementCaps :=
  { requestFullscreen := true, webkitRequestFullscreen := true,
    mozRequestFullScreen := true, msRequestFullscreen := true }

/-- An element exposing only the second-priority (webkit) request method. -/
def webkitOnlyCaps : ElementCaps :=
  { requestFullscreen := false, webkitRequestFullscreen := true,
    mozRequestFullScreen := false, msRequestFullscreen := false }

/-- A document exposing all four exit methods. -/
def fullDocCaps : DocumentCaps :=
  { exitFullscreen := true, webkitExitFullscreen := true,
    mozCancelFullScreen := true, msExitFullscreen := true }

/-- An environment in which every element and the document expose every
capability. -/
def fullCapsEnv : Env := { elemCaps := fun _ => fullCaps, docCaps := fullDocCaps }

/-- An environment in which every element exposes only the webkit request
method. -/
def webkitOnlyEnv : Env :=
  { elemCaps := fun _ => webkitOnlyCaps, docCaps := fullDocCaps }

/-- An element exposing no request method at all. -/
def noCaps : ElementCaps :=
  { requestFullscreen := false, webkitRequestFullscreen := false,
    mozRequestFullScreen := false, msRequestFullscreen := false }

/-- A document exposing no exit method at all. -/
def noDocCaps : DocumentCaps :=
  { exitFullscreen := false, webkitExitFullscreen := false,
    mozCancelFullScreen := false, msExitFullscreen := false }

/-- An environment with every capability absent everywhere. -/
def noCapsEnv : Env := { elemCaps := fun _ => noCaps, docCaps := noDocCaps }

/-- The invocation trace `enterFullscreen` produces, extracted as a pure
function (the operation itself never throws, see `enterFullscreen_eq_ok`). -/
def enterEffs (env : Env) (s : HookState) : List Eff :=
  match s.elementRef with
  | none => []
  | some e =>
    if s.isFullscreen then []
    else
      let c := env.elemCaps e
      if c.requestFullscreen then [Eff.request e .requestFullscreen]
      else if c.webkitRequestFullscreen then [Eff.request e .webkitRequestFullscreen]
      else if c.mozRequestFullScreen then [Eff.request e .mozRequestFullScreen]
      else if c.msRequestFullscreen then [Eff.request e .msRequestFullscreen]
      else []

/-- The invocation trace `exitFullscreen` produces, extracted as a pure
function. -/
def exitEffs (env : Env) (s : HookState) : List Eff :=
  if s.isFullscreen then
    let c := env.docCaps
    if c.exitFullscreen then [Eff.exitCall .exitFullscreen]
    else if c.webkitExitFullscreen then [Eff.exitCall .webkitExitFullscreen]
    else if c.mozCancelFullScreen then [Eff.exitCall .mozCancelFullScreen]
    else if c.msExitFullscreen then [Eff.exitCall .msExitFullscreen]
    else []
  else []

/-- The invocation trace `toggleFullscreen` produces, extracted as a pure
function. -/
def toggleEffs (env : Env) (s : HookState) : List Eff :=
  if s.isFullscreen then exitEffs env s else enterEffs env s

/-- Helper: `enterFullscreen` always succeeds, returns the hook state
unchanged, and its trace is `enterEffs` (each presence test happens before
the corresponding invocation, so the `TypeError` branch is unreachable). -/
theorem enterFullscreen_eq_ok (env : Env) (s : HookState) :
    enterFullscreen env s = Except.ok (s, enterEffs env s) := by
  obtain ⟨r, f⟩ := s
  cases r <;> cases f <;>
    simp only [enterFullscreen, enterEffs] <;>
    split_ifs <;> simp_all [invokeRequest, ElementCaps.has, Except.map]

/-- Helper: `exitFullscreen` always succeeds, returns the hook state
unchanged, and its trace is `exitEffs`. -/
theorem exitFullscreen_eq_ok (env : Env) (s : HookState) :
    exitFullscreen env s = Except.ok (s, exitEffs env s) := by
  obtain ⟨r, f⟩ := s
  cases f <;>
    simp only [exitFullscreen, exitEffs] <;>
    split_ifs <;> simp_all [invokeExit, DocumentCaps.has, Except.map]

/-- Helper: `toggleFullscreen` always succeeds, returns the hook state
unchanged, and its trace is `toggleEffs`. -/
theorem toggleFullscreen_eq_ok (env : Env) (s : HookState) :
    toggleFullscreen env s = Except.ok (s, toggleEffs env s) := by
  unfold toggleFullscreen toggleEffs
  split_ifs <;>
    simp [enterFullscreen_eq_ok, exitFullscreen_eq_ok]

/-- C1: for every sequence of simulated environment states and handle
(re)bindings, after the change-notification handler runs the flag equals the
result of comparing the environment's reported fullscreen target with the
currently bound element handle: true iff they are the same reference. -/
theorem flag_derivation_invariant (s : HookState) (es : List Ev) (d : DocumentState) :
    (runEvents s (es ++ [Ev.notify d])).isFullscreen =
      decide (getFullscreenElement d =
        (runEvents s (es ++ [Ev.notify d])).elementRef) := by
  simp [runEvents, List.foldl_append, stepEv, handleFullscreenChange]

/-- C2: enterFullscreen, exitFullscreen and toggleFullscreen return the hook
state — in particular the fullscreen flag — unchanged, for every environment
and starting state; among the modelled operations only the
change-notification handler writes the flag. -/
theorem operations_preserve_flag (env : Env) (s : HookState) :
    (enterFullscreen env s).map Prod.fst = Except.ok s ∧
    (exitFullscreen env s).map Prod.fst = Except.ok s ∧
    (toggleFullscreen env s).map Prod.fst = Except.ok s := by
  refine ⟨?_, ?_, ?_⟩ <;>
    simp [enterFullscreen_eq_ok, exitFullscreen_eq_ok, toggleFullscreen_eq_ok,
      Except.map]

/-- C3: toggleFullscreen behaves identically to exitFullscreen when the flag
is true and identically to enterFullscreen when the flag is false. -/
theorem toggle_delegates (env : Env) (s : HookState) :
    (s.isFullscreen = true → toggleFullscreen env s = exitFullscreen env s) ∧
    (s.isFullscreen = false → toggleFullscreen env s = enterFullscreen env s) := by
  constructor <;> intro h <;> simp [toggleFullscreen, h]

/-- Witness for `toggle_delegates` at a concrete state with the flag true. -/
theorem toggle_delegates_witness :
    ({ elementRef := some 0, isFullscreen := true } : HookState).isFullscreen = true ∧
    toggleFullscreen fullCapsEnv { elementRef := some 0, isFullscreen := true } =
      exitFullscreen fullCapsEnv { elementRef := some 0, isFullscreen := true } :=
  ⟨rfl, (toggle_delegates fullCapsEnv
    { elementRef := some 0, isFullscreen := true }).1 rfl⟩

/-- C4: when the element handle is absent or the flag is already true,
enterFullscreen performs no request-method invocation on any element. -/
theorem enter_guard_noop (env : Env) (s : HookState)
    (h : s.elementRef = none ∨ s.isFullscreen = true) :
    enterFullscreen env s = Except.ok (s, []) := by
  rcases hr : s.elementRef with _ | e <;>
    obtain h | h := h <;>
    simp_all [enterFullscreen]

/-- Witness for `enter_guard_noop` at the initial state (handle absent). -/
theorem enter_guard_noop_witness :
    (initialState.elementRef = none ∨ initialState.isFullscreen = true) ∧
    enterFullscreen fullCapsEnv initialState = Except.ok (initialState, []) :=
  ⟨Or.inl rfl, enter_guard_noop fullCapsEnv initialState (Or.inl rfl)⟩

/-- C5: when the flag is false, exitFullscreen performs no exit-method
invocation on the document. -/
theorem exit_noop_when_inactive (env : Env) (s : HookState)
    (h : s.isFullscreen = false) :
    exitFullscreen env s = Except.ok (s, []) := by
  simp [exitFullscreen, h]

/-- Witness for `exit_noop_when_inactive` at the initial state. -/
theorem exit_noop_when_inactive_witness :
    initialState.isFullscreen = false ∧
    exitFullscreen fullCapsEnv initialState = Except.ok (initialState, []) :=
  ⟨rfl, exit_noop_when_inactive fullCapsEnv initialState rfl⟩

/-- C6: the fullscreen-target query returns the first non-absent property in
the fixed order canonical, webkit, moz, ms; it returns `none` exactly when
all four are absent; and the canonical property wins whenever it is
present. -/
theorem query_priority_order (d : DocumentState) :
    getFullscreenElement d = queryFirstPresent d ∧
    (getFullscreenElement d = none ↔
      d.fullscreenElement = none ∧ d.webkitFullscreenElement = none ∧
        d.mozFullScreenElement = none ∧ d.msFullscreenElement = none) ∧
    (∀ e, d.fullscreenElement = some e → getFullscreenElement d = some e) := by
  obtain ⟨a, b, c, m⟩ := d
  cases a <;> cases b <;> cases c <;> cases m <;>
    simp [getFullscreenElement, queryFirstPresent, List.findSome?]

/-- Witness for `query_priority_order`: the canonical property wins over a
simultaneously present webkit property. -/
theorem query_priority_order_witness :
    ({ fullscreenElement := some 7, webkitFullscreenElement := some 3,
       mozFullScreenElement := none, msFullscreenElement := none } :
      DocumentState).fullscreenElement = some 7 ∧
    getFullscreenElement
      { fullscreenElement := some 7, webkitFullscreenElement := some 3,
        mozFullScreenElement := none, msFullscreenElement := none } = some 7 :=
  ⟨rfl, (query_priority_order
    { fullscreenElement := some 7, webkitFullscreenElement := some 3,
      mozFullScreenElement := none, msFullscreenElement := none }).2.2 7 rfl⟩

/-- C7: when the enter guard passes (handle bound, flag false),
enterFullscreen invokes exactly the first request method present in the
fixed order canonical, webkit, moz, ms, and none thereafter; in particular,
on a handle exposing only the webkit method, exactly that method is
invoked. -/
theorem enter_priority_fallback (env : Env) (s : HookState) (e : Nat)
    (href : s.elementRef = some e) (hflag : s.isFullscreen = false) :
    (∀ m, firstRequestMethod (env.elemCaps e) = some m →
      enterFullscreen env s = Except.ok (s, [Eff.request e m])) ∧
    (env.elemCaps e = webkitOnlyCaps →
      enterFullscreen env s =
        Except.ok (s, [Eff.request e RequestMethod.webkitRequestFullscreen])) := by
  rcases hc : env.elemCaps e with ⟨b1, b2, b3, b4⟩
  constructor
  · intro m hm
    cases b1 <;> cases b2 <;> cases b3 <;> cases b4 <;>
      simp_all [enterFullscreen, firstRequestMethod, invokeRequest,
        ElementCaps.has, List.find?, Except.map]
  · intro hw
    simp only [webkitOnlyCaps, ElementCaps.mk.injEq] at hw
    obtain ⟨h1, h2, h3, h4⟩ := hw
    subst h1; subst h2; subst h3; subst h4
    simp_all [enterFullscreen, invokeRequest, ElementCaps.has, Except.map]

/-- Witness for `enter_priority_fallback`: a webkit-only handle bound with
the flag false, invoking exactly the webkit request method. -/
theorem enter_priority_fallback_witness :
    ({ elementRef := some 2, isFullscreen := false } : HookState).elementRef = some 2 ∧
    enterFullscreen webkitOnlyEnv { elementRef := some 2, isFullscreen := false } =
      Except.ok ({ elementRef := some 2, isFullscreen := false },
        [Eff.request 2 RequestMethod.webkitRequestFullscreen]) :=
  ⟨rfl, (enter_priority_fallback webkitOnlyEnv
    { elementRef := some 2, isFullscreen := false } 2 rfl rfl).2 rfl⟩

/-- C8: the event names subscribed on activation equal the names
unsubscribed on deactivation, registration and deregistration use the same
handler reference, and after setup followed by cleanup the registry is empty,
so a manually dispatched notification invokes no residual handler. -/
theorem subscription_symmetry :
    subscribedEvents = unsubscribedEvents ∧
    (∀ h : Nat, effectCleanup h (effectSetup h []) = []) ∧
    (∀ (h : Nat) (ev : String),
      dispatchEvent (effectCleanup h (effectSetup h [])) ev = []) := by
  have hclean : ∀ h : Nat, effectCleanup h (effectSetup h []) = [] := by
    intro h
    simp [effectSetup, effectCleanup, subscribedEvents, unsubscribedEvents,
      addEventListener, removeEventListener, List.foldl]
  refine ⟨rfl, hclean, ?_⟩
  intro h ev
  rw [hclean h]
  rfl

/-- C9 counterexample: after one change notification with an empty
environment, the handle is still unbound but the flag is true (null === null),
and exitFullscreen then does invoke the document's exit capability — an
operation performed while no element handle is bound. -/
theorem unbound_exit_invokes_counterexample :
    (runEvents initialState [Ev.notify emptyDoc]).elementRef = none ∧
    exitFullscreen fullCapsEnv (runEvents initialState [Ev.notify emptyDoc]) =
      Except.ok (runEvents initialState [Ev.notify emptyDoc],
        [Eff.exitCall ExitMethod.exitFullscreen]) :=
  ⟨rfl, rfl⟩

/-- C9 amended: no operation ever throws (all return `Except.ok` in every
state, even with every capability absent); enterFullscreen performs no
invocation whenever the handle is unbound; and in the initial unbound state
(flag false) exitFullscreen and toggleFullscreen also perform none. -/
theorem operations_never_throw (env : Env) (s : HookState) :
    (∃ p, enterFullscreen env s = Except.ok p) ∧
    (∃ p, exitFullscreen env s = Except.ok p) ∧
    (∃ p, toggleFullscreen env s = Except.ok p) ∧
    (s.elementRef = none → enterFullscreen env s = Except.ok (s, [])) ∧
    (s.elementRef = none → s.isFullscreen = false →
      exitFullscreen env s = Except.ok (s, []) ∧
        toggleFullscreen env s = Except.ok (s, [])) := by
  refine ⟨⟨_, enterFullscreen_eq_ok env s⟩, ⟨_, exitFullscreen_eq_ok env s⟩,
    ⟨_, toggleFullscreen_eq_ok env s⟩, ?_, ?_⟩
  · intro h
    simp [enterFullscreen, h]
  · intro h hf
    constructor
    · simp [exitFullscreen, hf]
    · simp [toggleFullscreen, hf, enterFullscreen, h]

/-- Witness for `operations_never_throw` at the initial state with no
capabilities anywhere. -/
theorem operations_never_throw_witness :
    initialState.elementRef = none ∧ initialState.isFullscreen = false ∧
    enterFullscreen noCapsEnv initialState = Except.ok (initialState, []) :=
  ⟨rfl, rfl, (operations_never_throw noCapsEnv initialState).2.2.2.1 rfl⟩

/-- C10: when the environment reports no fullscreen target and the handle is
unbound, the change handler sets the flag to true (null === null is true);
the flag is false initially only because the handler has not yet run. -/
theorem null_handle_null_target_sets_flag (d : DocumentState) (s : HookState)
    (hd : getFullscreenElement d = none) (hs : s.elementRef = none) :
    (handleFullscreenChange d s).isFullscreen = true ∧
      initialState.isFullscreen = false := by
  refine ⟨?_, rfl⟩
  simp [handleFullscreenChange, hd, hs]

/-- Witness for `null_handle_null_target_sets_flag` at the empty environment
and the initial state. -/
theorem null_handle_null_target_sets_flag_witness :
    getFullscreenElement emptyDoc = none ∧
      (handleFullscreenChange emptyDoc initialState).isFullscreen = true :=
  ⟨rfl, (null_handle_null_target_sets_flag emptyDoc initialState rfl rfl).1⟩

end UseFullscreen
